import Mathlib

/-!
Verification development for the Nosana depin-sidecar module
(nosana_service.ts and nosana_logs.ts): a shallow embedding of the
job lifecycle controller, the confidential handoff protocol, the
retry helper, the delegated-auth cache, the log-stream client and the
balance query, together with theorems about the claimed behaviour.

Times are modelled in milliseconds as naturals; JS numbers used for
credit amounts are modelled as rationals; fallible operations are
modelled with Except; the outcome of an external call is passed in as
an explicit argument.
-/

deriving instance DecidableEq for Except

namespace Nosana

/-! ### Timing constants (nosana_service.ts lines 7-15) -/

def JOB_TIMEOUT_MS : Nat := 30 * 60 * 1000

def EXTEND_THRESHOLD_MS : Nat := 5 * 60 * 1000

def EXTEND_DURATION_SECS : Nat := 1800

def MIN_RUNTIME_FOR_REDEPLOY_MS : Nat := 20 * 60 * 1000

def API_AUTH_CACHE_TTL_MS : Nat := 5 * 60 * 1000

def SIGN_MESSAGE : String := "Hello Nosana Node!"

/-! ### Substring test, modelling JS String.prototype.includes -/

/-- leadsWith pat s: pat occurs at the start of s (character lists). -/
def leadsWith : List Char → List Char → Bool
  | [], _ => true
  | _ :: _, [] => false
  | p :: ps, c :: cs => p == c && leadsWith ps cs

/-- hasSubList pat s: pat occurs somewhere inside s (character lists). -/
def hasSubList (pat : List Char) : List Char → Bool
  | [] => leadsWith pat []
  | c :: cs => leadsWith pat (c :: cs) || hasSubList pat cs

/-- strIncludes s pat models JS s.includes(pat). -/
def strIncludes (s pat : String) : Bool :=
  hasSubList pat.toList s.toList

/-! ### The retry helper (nosana_service.ts lines 34-47)

`retryRun fn retries delay attempt` models the recursive function
`retry(fn, retries, delay)` where `fn attempt` gives the outcome of
the (attempt+1)-th invocation of the wrapped operation.  The trace
records the final outcome, the list of sleeps performed between
attempts, and the number of invocations of the operation. -/

/-- errorMsg models `error.message || ""` on the thrown value. -/
def isRateLimitMsg (m : String) : Bool :=
  strIncludes m "429" || strIncludes m "Too Many Requests"

structure RetryTrace (α : Type) where
  result : Except String α
  delays : List Nat
  calls : Nat
deriving Repr

def retryRun {α : Type} (fn : Nat → Except String α) : Nat → Nat → Nat → RetryTrace α
  | 0, _, attempt =>
    match fn attempt with
    | .ok v => ⟨.ok v, [], 1⟩
    | .error e => ⟨.error e, [], 1⟩
  | retries + 1, delay, attempt =>
    match fn attempt with
    | .ok v => ⟨.ok v, [], 1⟩
    | .error e =>
      if isRateLimitMsg e then
        let rest := retryRun fn retries (delay * 2) (attempt + 1)
        ⟨rest.result, delay :: rest.delays, rest.calls + 1⟩
      else ⟨.error e, [], 1⟩

/-- Source default arguments: retries = 5, delay = 500, starting at attempt 0. -/
def retryDefault {α : Type} (fn : Nat → Except String α) : RetryTrace α :=
  retryRun fn 5 500 0

/-! ### Job definitions and the confidential placeholder
(nosana_service.ts lines 249-279, launchJob step A)

A job definition is modelled with the fields the launch path touches:
version, type, meta (an association list of metadata entries),
logistics (optional send/receive entries, each with a type tag and
opaque args), and the ops list.  An op carries the operational fields
(image, command and an opaque rest). -/

structure LogisticsEntry where
  ltype : String
  largs : List (String × String)
deriving DecidableEq, Repr

structure Logistics where
  send : Option LogisticsEntry
  receive : Option LogisticsEntry
deriving DecidableEq, Repr

structure JobOp where
  opType : String
  image : Option String
  cmd : Option String
  rest : List (String × String)
deriving DecidableEq, Repr

structure JobDefn where
  version : Option String
  jtype : Option String
  meta : List (String × String)
  logistics : Option Logistics
  ops : List JobOp
deriving DecidableEq, Repr

/-- jsOrStr v d models the JS expression v || d for a possibly-absent
string (absent and empty are both falsy). -/
def jsOrStr (v : Option String) (d : String) : String :=
  match v with
  | none => d
  | some s => if s = "" then d else s

/-- Models the spread expression with the trigger key overridden to
"cli": all other metadata entries are kept, trigger maps to "cli". -/
def metaWithCliTrigger (m : List (String × String)) : List (String × String) :=
  m.filter (fun p => p.1 ≠ "trigger") ++ [("trigger", "cli")]

/-- The default logistics entry of the placeholder. -/
def apiListen : LogisticsEntry := ⟨"api-listen", []⟩

/-- The send entry pinned for a confidential launch: the declared send
entry is carried over only when its type is exactly "api". -/
def placeholderSend (jd : JobDefn) : LogisticsEntry :=
  match jd.logistics with
  | some l =>
    match l.send with
    | some s => if s.ltype = "api" then s else apiListen
    | none => apiListen
  | none => apiListen

/-- The receive entry pinned for a confidential launch. -/
def placeholderReceive (jd : JobDefn) : LogisticsEntry :=
  match jd.logistics with
  | some l =>
    match l.receive with
    | some r => if r.ltype = "api" then r else apiListen
    | none => apiListen
  | none => apiListen

/-- The dummy definition built in launchJob when isConfidential. -/
def buildPlaceholder (jd : JobDefn) : JobDefn :=
  { version := some (jsOrStr jd.version "0.1")
    jtype := some (jsOrStr jd.jtype "container")
    meta := metaWithCliTrigger jd.meta
    logistics := some ⟨some (placeholderSend jd), some (placeholderReceive jd)⟩
    ops := [] }

/-- definitionToPin: the object pinned to public content-addressed
storage by launchJob. -/
def definitionToPin (jd : JobDefn) (isConfidential : Bool) : JobDefn :=
  if isConfidential then buildPlaceholder jd else jd

/-! ### The watch loop terminal block (nosana_service.ts lines 857-1104)

A watched job carries the registry record of watchJob; on observing a
terminal state at a tick, the loop runs the termination block (lines
989-1103).  The block is modelled as the list of externally visible
actions it performs, in order: heartbeat posts, the redeploy
(launchJob) call, the spawn of a new watch task, and the removal of
the registry entry.  The outcome of the redeploy call is passed in as
an Option (none models a thrown launch error). -/

structure Resources where
  gpu_allocated : Nat
  vcpu_allocated : Nat
  ram_gb_allocated : Nat
deriving DecidableEq, Repr

structure WatchedJobInfo where
  jobAddress : String
  deploymentUuid : Option String
  startTime : Nat
  lastExtendTime : Nat
  jobDefinition : Option JobDefn
  marketAddress : String
  isConfidential : Bool
  resources : Resources
  userStopped : Bool
  serviceUrl : Option String
deriving DecidableEq, Repr

structure HeartbeatPayload where
  provider : String
  provider_instance_id : String
  old_provider_instance_id : Option String
  gpu_allocated : Nat
  vcpu_allocated : Nat
  ram_gb_allocated : Nat
  health_score : Nat
  state : String
deriving DecidableEq, Repr

structure LaunchResult where
  jobAddress : String
  deploymentUuid : Option String
  ipfsHash : String
deriving DecidableEq, Repr

inductive WatchAction where
  | heartbeat (p : HeartbeatPayload)
  | redeploy (defn : Option JobDefn) (market : String) (confidential : Bool)
  | spawnWatch (addr : String) (defn : Option JobDefn) (market : String)
      (confidential : Bool) (res : Resources)
  | removeEntry (addr : String)
deriving DecidableEq, Repr

/-- The "failed" heartbeat posted by the termination block. -/
def failedPayload (addr : String) : HeartbeatPayload :=
  { provider := "nosana", provider_instance_id := addr,
    old_provider_instance_id := none,
    gpu_allocated := 0, vcpu_allocated := 0, ram_gb_allocated := 0,
    health_score := 0, state := "failed" }

/-- The final "terminated" heartbeat posted by the termination block. -/
def terminatedPayload (addr : String) : HeartbeatPayload :=
  { provider := "nosana", provider_instance_id := addr,
    old_provider_instance_id := none,
    gpu_allocated := 0, vcpu_allocated := 0, ram_gb_allocated := 0,
    health_score := 0, state := "terminated" }

/-- The "provisioning" heartbeat posted after a successful redeploy,
linking the old address to the new one. -/
def provisioningPayload (newAddr oldAddr : String) (res : Resources) : HeartbeatPayload :=
  { provider := "nosana", provider_instance_id := newAddr,
    old_provider_instance_id := some oldAddr,
    gpu_allocated := res.gpu_allocated, vcpu_allocated := res.vcpu_allocated,
    ram_gb_allocated := res.ram_gb_allocated,
    health_score := 50, state := "provisioning" }

/-- The decision branch of the termination block (lines 1004-1083):
userStopped does nothing; a runtime below the redeploy threshold posts
a "failed" heartbeat; otherwise with a non-null definition and a
non-empty market the job is relaunched, and on success a
"provisioning" heartbeat is posted and a new watch task spawned for
the new address, while on a launch failure a "failed" heartbeat is
posted. -/
def terminalBranch (jobAddress : String) (info : WatchedJobInfo) (runtime : Nat)
    (launch : Option LaunchResult) : List WatchAction :=
  if info.userStopped then []
  else if runtime < MIN_RUNTIME_FOR_REDEPLOY_MS then
    [.heartbeat (failedPayload jobAddress)]
  else if info.jobDefinition.isSome ∧ info.marketAddress ≠ "" ∧
      MIN_RUNTIME_FOR_REDEPLOY_MS ≤ runtime then
    match launch with
    | some newJob =>
      [.redeploy info.jobDefinition info.marketAddress info.isConfidential,
       .heartbeat (provisioningPayload newJob.jobAddress jobAddress info.resources),
       .spawnWatch newJob.jobAddress info.jobDefinition info.marketAddress
         info.isConfidential info.resources]
    | none =>
      [.redeploy info.jobDefinition info.marketAddress info.isConfidential,
       .heartbeat (failedPayload jobAddress)]
  else []

/-- The whole termination block (lines 989-1103): the decision branch,
then unconditionally the final "terminated" heartbeat and the removal
of the registry entry, after which the loop returns. -/
def terminalTrace (jobAddress : String) (info : WatchedJobInfo) (runtime : Nat)
    (launch : Option LaunchResult) : List WatchAction :=
  terminalBranch jobAddress info runtime launch
    ++ [.heartbeat (terminatedPayload jobAddress), .removeEntry jobAddress]

/-- Classifier: a redeploy (launchJob) call. -/
def isRedeploy : WatchAction → Bool
  | .redeploy _ _ _ => true
  | _ => false

/-- Classifier: a spawned watch task. -/
def isSpawnWatch : WatchAction → Bool
  | .spawnWatch _ _ _ _ _ => true
  | _ => false

/-- Classifier: a heartbeat whose state field is s. -/
def isHeartbeatState (s : String) : WatchAction → Bool
  | .heartbeat p => p.state == s
  | _ => false

/-! ### The log stream client (nosana_logs.ts lines 11-190)

The reconnection-relevant state of a LogStreamer is the pair
(shouldReconnect, retryCount); maxRetries is 10 and retryDelay is
3000 ms.  The events it reacts to are the socket open event (which
resets retryCount), the socket close event with its code, and an
external call to close() (which disables reconnection and tears the
socket down).  Each event produces a list of effects: scheduling a
reconnect after a delay, or emitting the close event to listeners. -/

structure StreamerState where
  shouldReconnect : Bool
  retryCount : Nat
deriving DecidableEq, Repr

def streamerInit : StreamerState := ⟨true, 0⟩

def maxRetries : Nat := 10

def reconnectDelayMs : Nat := 3000

inductive StreamerEvent where
  | socketOpen
  | socketClose (code : Nat)
  | closeCall
deriving DecidableEq, Repr

inductive StreamerEffect where
  | scheduleReconnect (delayMs : Nat)
  | emitClose
deriving DecidableEq, Repr

/-- One event step of a LogStreamer (the open handler at line 108
resets retryCount; the close handler at lines 155-168 schedules a
reconnect after retryDelay when shouldReconnect holds and the retry
budget is not exhausted, and otherwise emits close; close() at lines
183-189 clears shouldReconnect). -/
def streamerStep (s : StreamerState) : StreamerEvent → StreamerState × List StreamerEffect
  | .socketOpen => ({ s with retryCount := 0 }, [])
  | .socketClose _ =>
    if s.shouldReconnect ∧ s.retryCount < maxRetries then
      ({ s with retryCount := s.retryCount + 1 },
       [.scheduleReconnect reconnectDelayMs])
    else (s, [.emitClose])
  | .closeCall => ({ s with shouldReconnect := false }, [])

/-- Run a LogStreamer over a sequence of events, collecting effects. -/
def streamerRun (s : StreamerState) : List StreamerEvent → StreamerState × List StreamerEffect
  | [] => (s, [])
  | e :: rest =>
    let step := streamerStep s e
    let next := streamerRun step.1 rest
    (next.1, step.2 ++ next.2)

/-! ### The delegated-auth cache (nosana_service.ts lines 131-168)

signMessageExternal is modelled as a function of the cache state, the
requested message, the current time, and the response the remote
signing endpoint would give if called.  It returns the produced
result, the new cache state, and whether a network request was made. -/

structure SigResult where
  signature : String
  message : String
  userAddress : String
deriving DecidableEq, Repr

structure CachedAuth where
  signature : String
  message : String
  userAddress : String
  timestamp : Nat
deriving DecidableEq, Repr

def signMessageExternal (cache : Option CachedAuth) (message : String)
    (now : Nat) (remote : SigResult) : SigResult × Option CachedAuth × Bool :=
  match cache with
  | some c =>
    if c.message = message ∧ now - c.timestamp < API_AUTH_CACHE_TTL_MS then
      (⟨c.signature, c.message, c.userAddress⟩, some c, false)
    else
      (remote, some ⟨remote.signature, remote.message, remote.userAddress, now⟩, true)
  | none =>
    (remote, some ⟨remote.signature, remote.message, remote.userAddress, now⟩, true)

/-! ### The confidential push with one forced re-auth retry
(nosana_service.ts lines 445-479)

sendDef posts the real definition to the node; a non-2xx response is
thrown as an error carrying the HTTP status.  The outcomes of the
first attempt and of the (at most one) retry are passed in, as is the
delegated-auth cache state and the response of the remote signing
endpoint used to re-obtain a header after a 4xx. -/

structure PushError where
  status : Nat
  msg : String
deriving DecidableEq, Repr

structure PushOutcome where
  result : Except PushError Unit
  sendAttempts : Nat
  authRefreshed : Bool
  cacheAfter : Option CachedAuth
deriving DecidableEq, Repr

/-- The try/catch around sendDef in API mode: a first failure with a
4xx status clears the cached auth, re-obtains a fresh header via the
remote signing endpoint, and retries exactly once, surfacing whatever
that retry produces; any other first failure is surfaced directly. -/
def confidentialPush (attempt1 attempt2 : Except PushError Unit)
    (cache : Option CachedAuth) (now : Nat) (remote : SigResult) : PushOutcome :=
  match attempt1 with
  | .ok _ => ⟨.ok (), 1, false, cache⟩
  | .error e =>
    if 400 ≤ e.status ∧ e.status < 500 then
      let auth := signMessageExternal none SIGN_MESSAGE now remote
      ⟨attempt2, 2, true, auth.2.1⟩
    else ⟨.error e, 1, false, cache⟩

/-! ### Waiting for RUNNING before the handoff
(nosana_service.ts lines 394-421)

The poll loop runs for at most 600 iterations; poll i is the outcome
of the job read at iteration i (none models a thrown read, which the
loop swallows).  The loop breaks on RUNNING, returns without pushing
on COMPLETED or STOPPED, and after the loop the definition is pushed
only when the last read job is RUNNING.  The function returns true
exactly when the real definition gets pushed to the node. -/

inductive JState where
  | QUEUED
  | RUNNING
  | COMPLETED
  | STOPPED
  | OTHER
deriving DecidableEq, Repr

def POLL_MAX_RETRIES : Nat := 600

def POLL_INTERVAL_MS : Nat := 3000

def waitForRunningAndSendDefinition (poll : Nat → Option JState) :
    Nat → Nat → Option JState → Bool
  | 0, _, last =>
    match last with
    | some s => s == JState.RUNNING
    | none => false
  | fuel + 1, i, last =>
    match poll i with
    | some s =>
      if s = JState.RUNNING then true
      else if s = JState.COMPLETED ∨ s = JState.STOPPED then false
      else waitForRunningAndSendDefinition poll fuel (i + 1) (some s)
    | none => waitForRunningAndSendDefinition poll fuel (i + 1) last

/-- The handoff poll as invoked: 600 attempts from iteration 0 with no
job yet read. -/
def handoffPushes (poll : Nat → Option JState) : Bool :=
  waitForRunningAndSendDefinition poll POLL_MAX_RETRIES 0 none

/-! ### getBalance in API mode (nosana_service.ts lines 758-802)

Credit amounts are JS numbers, modelled as rationals; toFixed2 models
Number.prototype.toFixed(2) by rounding to the nearest hundredth
(half away from zero on the decimal value) and rendering with two
digits after the point. -/

structure CreditsBalance where
  assignedCredits : ℚ
  reservedCredits : ℚ
  settledCredits : ℚ
deriving DecidableEq, Repr

structure ApiBalanceResult where
  sol : ℚ
  nos : String
  assignedCredits : Option ℚ
  reservedCredits : Option ℚ
  settledCredits : Option ℚ
  address : String
deriving DecidableEq, Repr

/-- Two-digit decimal rendering of a rational, modelling toFixed(2):
round to the nearest hundredth (half away from zero), then print the
integer part, a point, and exactly two fractional digits. -/
def toFixed2 (q : ℚ) : String :=
  let scaled : Int := if q < 0 then -(Rat.floor (-q * 100 + 1/2)) else Rat.floor (q * 100 + 1/2)
  let sign := if scaled < 0 then "-" else ""
  let n := scaled.natAbs
  sign ++ toString (n / 100) ++ "." ++
    String.mk [Nat.digitChar (n % 100 / 10), Nat.digitChar (n % 10)]

/-- getBalance in API mode: the primary credits-balance endpoint
outcome and the SDK fallback outcome are passed in.  The primary
success path returns sol = 0, nos = available credits (assigned minus
reserved minus settled) formatted to two decimals, the three raw
credit fields, and address API_ACCOUNT; on a primary failure the SDK
fallback amount is used (absent or empty means "0"), and a fallback
failure re-throws the original error. -/
def getBalanceApi (primary : Except String CreditsBalance)
    (fallback : Except String (Option String)) : Except String ApiBalanceResult :=
  match primary with
  | .ok balance =>
    let availableCredits := balance.assignedCredits - balance.reservedCredits - balance.settledCredits
    .ok ⟨0, toFixed2 availableCredits, some balance.assignedCredits,
      some balance.reservedCredits, some balance.settledCredits, "API_ACCOUNT"⟩
  | .error e =>
    match fallback with
    | .ok amount => .ok ⟨0, jsOrStr amount "0", none, none, none, "API_ACCOUNT"⟩
    | .error _ => .error e

/-! ### Concrete sample values used by the closed witness theorems -/

def sampleDefn : JobDefn :=
  ⟨some "0.1", some "container", [("name", "svc")],
   some ⟨some ⟨"api", [("port", "9000")]⟩, none⟩,
   [⟨"container/run", some "img:latest", some "serve", []⟩]⟩

def sampleResources : Resources := ⟨1, 8, 32⟩

def sampleInfo : WatchedJobInfo :=
  ⟨"oldAddr", none, 0, 0, some sampleDefn, "market1", true,
   sampleResources, false, none⟩

def sampleLaunch : LaunchResult := ⟨"newAddr", none, "QmHash"⟩

def sampleSig : SigResult := ⟨"sigA", "Hello Nosana Node!", "walletA"⟩

def sampleSig2 : SigResult := ⟨"sigB", "Hello Nosana Node!", "walletB"⟩

/-! ## Theorems -/

/-- In the pinned metadata the trigger key maps to "cli". -/
lemma lookup_metaWithCliTrigger (m : List (String × String)) :
    (metaWithCliTrigger m).lookup "trigger" = some "cli" := by
  induction m with
  | nil => rfl
  | cons p ps ih =>
    by_cases h : p.1 = "trigger"
    · simpa [metaWithCliTrigger, h] using ih
    · have hb : ("trigger" == p.1) = false := by
        simp [BEq.beq]
        exact fun hc => h hc.symm
      simpa [metaWithCliTrigger, h, List.lookup, hb] using ih

/-- Claim C1: for a job launched with isConfidential = true, the
definition pinned to public content-addressed storage has an empty ops
list (hence carries no command or image of the real definition), its
logistics send and receive entries are either the declared entries of
type "api" carried over from the real definition or the default
api-listen entry with empty args, and its metadata maps trigger to
"cli". -/
theorem confidential_placeholder_strips_operational_fields (jd : JobDefn) :
    (definitionToPin jd true).ops = [] ∧
    (definitionToPin jd true).logistics =
      some ⟨some (placeholderSend jd), some (placeholderReceive jd)⟩ ∧
    (placeholderSend jd = apiListen ∨
      (jd.logistics.bind Logistics.send = some (placeholderSend jd) ∧
        (placeholderSend jd).ltype = "api")) ∧
    (placeholderReceive jd = apiListen ∨
      (jd.logistics.bind Logistics.receive = some (placeholderReceive jd) ∧
        (placeholderReceive jd).ltype = "api")) ∧
    (definitionToPin jd true).meta.lookup "trigger" = some "cli" := by
  refine ⟨rfl, rfl, ?_, ?_, lookup_metaWithCliTrigger jd.meta⟩
  · cases hl : jd.logistics with
    | none => exact Or.inl (by simp [placeholderSend, hl])
    | some l =>
      cases hs : l.send with
      | none => exact Or.inl (by simp [placeholderSend, hl, hs])
      | some s =>
        by_cases ht : s.ltype = "api"
        · exact Or.inr (by simp [placeholderSend, hl, hs, ht])
        · exact Or.inl (by simp [placeholderSend, hl, hs, ht])
  · cases hl : jd.logistics with
    | none => exact Or.inl (by simp [placeholderReceive, hl])
    | some l =>
      cases hr : l.receive with
      | none => exact Or.inl (by simp [placeholderReceive, hl, hr])
      | some r =>
        by_cases ht : r.ltype = "api"
        · exact Or.inr (by simp [placeholderReceive, hl, hr, ht])
        · exact Or.inl (by simp [placeholderReceive, hl, hr, ht])

/-- Claim C2: when the watch loop observes a terminal state with
userStopped = false, a non-null definition, a non-empty market and a
runtime of at least 20 minutes, and the relaunch succeeds, the
termination block performs exactly one redeploy call with the same
definition, market and confidentiality flag, posts exactly one
provisioning heartbeat linking the old address to the new one with the
same resource profile, spawns exactly one new watch task for the new
address, and ends by removing the registry entry and exiting; even
when the relaunch fails, exactly one redeploy call is made and no new
watch task is spawned. -/
theorem watch_redeploy_after_long_runtime (addr : String) (info : WatchedJobInfo)
    (runtime : Nat) (newJob : LaunchResult)
    (hstop : info.userStopped = false)
    (hdef : info.jobDefinition.isSome = true)
    (hmkt : info.marketAddress ≠ "")
    (hrt : MIN_RUNTIME_FOR_REDEPLOY_MS ≤ runtime) :
    terminalTrace addr info runtime (some newJob) =
      [WatchAction.redeploy info.jobDefinition info.marketAddress info.isConfidential,
       WatchAction.heartbeat (provisioningPayload newJob.jobAddress addr info.resources),
       WatchAction.spawnWatch newJob.jobAddress info.jobDefinition info.marketAddress
         info.isConfidential info.resources,
       WatchAction.heartbeat (terminatedPayload addr),
       WatchAction.removeEntry addr] ∧
    (terminalTrace addr info runtime (some newJob)).countP isRedeploy = 1 ∧
    (terminalTrace addr info runtime (some newJob)).countP isSpawnWatch = 1 ∧
    (terminalTrace addr info runtime (some newJob)).countP
      (isHeartbeatState "provisioning") = 1 ∧
    (terminalTrace addr info runtime none).countP isRedeploy = 1 ∧
    (terminalTrace addr info runtime none).countP isSpawnWatch = 0 := by
  have htrace : terminalTrace addr info runtime (some newJob) =
      [WatchAction.redeploy info.jobDefinition info.marketAddress info.isConfidential,
       WatchAction.heartbeat (provisioningPayload newJob.jobAddress addr info.resources),
       WatchAction.spawnWatch newJob.jobAddress info.jobDefinition info.marketAddress
         info.isConfidential info.resources,
       WatchAction.heartbeat (terminatedPayload addr),
       WatchAction.removeEntry addr] := by
    simp [terminalTrace, terminalBranch, hstop, hdef, hmkt, hrt, Nat.not_lt.mpr hrt]
  have hfailtrace : terminalTrace addr info runtime none =
      [WatchAction.redeploy info.jobDefinition info.marketAddress info.isConfidential,
       WatchAction.heartbeat (failedPayload addr),
       WatchAction.heartbeat (terminatedPayload addr),
       WatchAction.removeEntry addr] := by
    simp [terminalTrace, terminalBranch, hstop, hdef, hmkt, hrt, Nat.not_lt.mpr hrt]
  refine ⟨htrace, ?_, ?_, ?_, ?_, ?_⟩ <;>
    simp [htrace, hfailtrace, List.countP_cons, isRedeploy, isSpawnWatch,
      isHeartbeatState, provisioningPayload, terminatedPayload, failedPayload]

/-- Closed instance of the C2 theorem at concrete inputs. -/
theorem watch_redeploy_after_long_runtime_witness :
    terminalTrace "oldAddr" sampleInfo MIN_RUNTIME_FOR_REDEPLOY_MS (some sampleLaunch) =
      [WatchAction.redeploy (some sampleDefn) "market1" true,
       WatchAction.heartbeat (provisioningPayload "newAddr" "oldAddr" sampleResources),
       WatchAction.spawnWatch "newAddr" (some sampleDefn) "market1" true sampleResources,
       WatchAction.heartbeat (terminatedPayload "oldAddr"),
       WatchAction.removeEntry "oldAddr"] ∧
    (terminalTrace "oldAddr" sampleInfo MIN_RUNTIME_FOR_REDEPLOY_MS
      (some sampleLaunch)).countP isRedeploy = 1 ∧
    (terminalTrace "oldAddr" sampleInfo MIN_RUNTIME_FOR_REDEPLOY_MS
      (some sampleLaunch)).countP isSpawnWatch = 1 ∧
    (terminalTrace "oldAddr" sampleInfo MIN_RUNTIME_FOR_REDEPLOY_MS
      (some sampleLaunch)).countP (isHeartbeatState "provisioning") = 1 ∧
    (terminalTrace "oldAddr" sampleInfo MIN_RUNTIME_FOR_REDEPLOY_MS
      none).countP isRedeploy = 1 ∧
    (terminalTrace "oldAddr" sampleInfo MIN_RUNTIME_FOR_REDEPLOY_MS
      none).countP isSpawnWatch = 0 :=
  watch_redeploy_after_long_runtime "oldAddr" sampleInfo MIN_RUNTIME_FOR_REDEPLOY_MS
    sampleLaunch rfl rfl (by decide) (Nat.le_refl _)

/-- Claim C3: when the watch loop observes a terminal state with
userStopped = false and a runtime below 20 minutes, the termination
block posts exactly one "failed" heartbeat and makes no redeploy call,
then posts the final "terminated" heartbeat, removes the registry
entry and exits. -/
theorem watch_early_termination_no_redeploy (addr : String) (info : WatchedJobInfo)
    (runtime : Nat) (launch : Option LaunchResult)
    (hstop : info.userStopped = false)
    (hrt : runtime < MIN_RUNTIME_FOR_REDEPLOY_MS) :
    terminalTrace addr info runtime launch =
      [WatchAction.heartbeat (failedPayload addr),
       WatchAction.heartbeat (terminatedPayload addr),
       WatchAction.removeEntry addr] ∧
    (terminalTrace addr info runtime launch).countP isRedeploy = 0 ∧
    (terminalTrace addr info runtime launch).countP (isHeartbeatState "failed") = 1 := by
  have htrace : terminalTrace addr info runtime launch =
      [WatchAction.heartbeat (failedPayload addr),
       WatchAction.heartbeat (terminatedPayload addr),
       WatchAction.removeEntry addr] := by
    simp [terminalTrace, terminalBranch, hstop, hrt]
  refine ⟨htrace, ?_, ?_⟩ <;>
    simp [htrace, List.countP_cons, isRedeploy, isHeartbeatState,
      failedPayload, terminatedPayload]

/-- Closed instance of the C3 theorem at concrete inputs. -/
theorem watch_early_termination_no_redeploy_witness :
    terminalTrace "oldAddr" sampleInfo 60000 none =
      [WatchAction.heartbeat (failedPayload "oldAddr"),
       WatchAction.heartbeat (terminatedPayload "oldAddr"),
       WatchAction.removeEntry "oldAddr"] ∧
    (terminalTrace "oldAddr" sampleInfo 60000 none).countP isRedeploy = 0 ∧
    (terminalTrace "oldAddr" sampleInfo 60000 none).countP
      (isHeartbeatState "failed") = 1 :=
  watch_early_termination_no_redeploy "oldAddr" sampleInfo 60000 none rfl (by decide)

/-- Claim C9: for every terminal observation, whatever the redeploy
decision and outcome, the termination block ends with a final
heartbeat for the original address whose state is "terminated" and
whose gpu, vcpu, ram and health fields are all 0, followed by the
removal of that address from the registry. -/
theorem watch_terminated_heartbeat_always_final (addr : String) (info : WatchedJobInfo)
    (runtime : Nat) (launch : Option LaunchResult) :
    ∃ pre, terminalTrace addr info runtime launch =
      pre ++ [WatchAction.heartbeat (terminatedPayload addr),
        WatchAction.removeEntry addr] ∧
    (terminatedPayload addr).gpu_allocated = 0 ∧
    (terminatedPayload addr).vcpu_allocated = 0 ∧
    (terminatedPayload addr).ram_gb_allocated = 0 ∧
    (terminatedPayload addr).health_score = 0 ∧
    (terminatedPayload addr).state = "terminated" ∧
    (terminatedPayload addr).provider_instance_id = addr :=
  ⟨terminalBranch addr info runtime launch, rfl, rfl, rfl, rfl, rfl, rfl, rfl⟩

/-- Every event preserves a disabled reconnection flag. -/
lemma streamerStep_preserves_disabled (s : StreamerState) (e : StreamerEvent)
    (h : s.shouldReconnect = false) :
    (streamerStep s e).1.shouldReconnect = false := by
  cases e with
  | socketOpen => simpa [streamerStep] using h
  | socketClose code => simp [streamerStep, h]
  | closeCall => simp [streamerStep]

/-- With reconnection disabled no run of events ever schedules a
reconnect. -/
lemma streamerRun_disabled_no_reconnect (evts : List StreamerEvent) :
    ∀ s : StreamerState, s.shouldReconnect = false →
    ∀ d, StreamerEffect.scheduleReconnect d ∉ (streamerRun s evts).2 := by
  induction evts with
  | nil => intro s _ d; simp [streamerRun]
  | cons e rest ih =>
    intro s h d
    have hstep : (streamerStep s e).1.shouldReconnect = false :=
      streamerStep_preserves_disabled s e h
    have hrest := ih (streamerStep s e).1 hstep d
    have heff : StreamerEffect.scheduleReconnect d ∉ (streamerStep s e).2 := by
      cases e with
      | socketOpen => simp [streamerStep]
      | socketClose code => simp [streamerStep, h]
      | closeCall => simp [streamerStep]
    simp only [streamerRun, List.mem_append]
    exact fun hc => hc.elim (fun hx => heff hx) (fun hx => hrest hx)

/-- Claim C5: while reconnection is enabled and the retry budget is
not exhausted, a close event with an abnormal code (neither 1000 nor
1005) schedules a reconnect after the fixed 3000 ms delay and
increments the retry count; once the budget of 10 attempts is
exhausted a close event emits close and changes nothing; and after
close() has been called no subsequent sequence of events ever
schedules a reconnect. -/
theorem logstream_reconnect_policy (s : StreamerState) (code : Nat)
    (evts : List StreamerEvent) :
    (s.shouldReconnect = true → s.retryCount < maxRetries →
      code ≠ 1000 → code ≠ 1005 →
      streamerStep s (.socketClose code) =
        ({ s with retryCount := s.retryCount + 1 },
         [.scheduleReconnect reconnectDelayMs])) ∧
    (maxRetries ≤ s.retryCount →
      streamerStep s (.socketClose code) = (s, [.emitClose])) ∧
    (∀ d, StreamerEffect.scheduleReconnect d ∉
      (streamerRun (streamerStep s .closeCall).1 evts).2) := by
  refine ⟨?_, ?_, ?_⟩
  · intro hon hcnt _ _
    simp [streamerStep, hon, hcnt]
  · intro hcnt
    simp [streamerStep, Nat.not_lt.mpr hcnt]
  · exact streamerRun_disabled_no_reconnect evts (streamerStep s .closeCall).1
      (by simp [streamerStep])

/-- Closed instance of the C5 theorem at concrete inputs. -/
theorem logstream_reconnect_policy_witness :
    streamerStep ⟨true, 3⟩ (.socketClose 1006) =
      (⟨true, 4⟩, [.scheduleReconnect reconnectDelayMs]) ∧
    streamerStep ⟨true, 10⟩ (.socketClose 1006) = (⟨true, 10⟩, [.emitClose]) ∧
    StreamerEffect.scheduleReconnect 3000 ∉
      (streamerRun (streamerStep ⟨true, 5⟩ .closeCall).1
        [.socketClose 1006, .socketOpen, .socketClose 1000]).2 :=
  ⟨(logstream_reconnect_policy ⟨true, 3⟩ 1006 []).1 rfl (by decide)
      (by decide) (by decide),
   (logstream_reconnect_policy ⟨true, 10⟩ 1006 []).2.1 (by decide),
   (logstream_reconnect_policy ⟨true, 5⟩ 1006
      [.socketClose 1006, .socketOpen, .socketClose 1000]).2.2 3000⟩

/-- Claim C6: a first delegated-signing call on an empty cache issues
a network request and caches the response with its timestamp; a second
call for the same message within the 5 minute TTL returns the
identical cached triple with no network request and leaves the cache
unchanged; a call after TTL expiry, with a different message, or on a
cleared cache issues a new request.  The cache is keyed by the message
field of the cached response, so the hit case needs the endpoint to
have echoed the requested message. -/
theorem delegated_signer_cache (msg msg2 : String) (t1 t2 : Nat)
    (remote1 remote2 : SigResult) (hecho : remote1.message = msg) :
    (signMessageExternal none msg t1 remote1).2.2 = true ∧
    (signMessageExternal none msg t1 remote1).2.1 =
      some ⟨remote1.signature, remote1.message, remote1.userAddress, t1⟩ ∧
    (t2 - t1 < API_AUTH_CACHE_TTL_MS →
      signMessageExternal (signMessageExternal none msg t1 remote1).2.1 msg t2 remote2 =
        (remote1, (signMessageExternal none msg t1 remote1).2.1, false)) ∧
    (API_AUTH_CACHE_TTL_MS ≤ t2 - t1 →
      (signMessageExternal (signMessageExternal none msg t1 remote1).2.1
        msg t2 remote2).2.2 = true) ∧
    (remote1.message ≠ msg2 →
      (signMessageExternal (signMessageExternal none msg t1 remote1).2.1
        msg2 t2 remote2).2.2 = true) ∧
    (signMessageExternal none msg t2 remote2).2.2 = true := by
  subst hecho
  refine ⟨rfl, rfl, ?_, ?_, ?_, rfl⟩
  · intro httl
    simp [signMessageExternal, httl]
  · intro httl
    simp [signMessageExternal, Nat.not_lt.mpr httl]
  · intro hmsg
    simp [signMessageExternal, hmsg]

/-- Closed instance of the C6 theorem at concrete inputs. -/
theorem delegated_signer_cache_witness :
    (signMessageExternal none "Hello Nosana Node!" 1000 sampleSig).2.2 = true ∧
    (signMessageExternal none "Hello Nosana Node!" 1000 sampleSig).2.1 =
      some ⟨"sigA", "Hello Nosana Node!", "walletA", 1000⟩ ∧
    signMessageExternal
        (signMessageExternal none "Hello Nosana Node!" 1000 sampleSig).2.1
        "Hello Nosana Node!" 2000 sampleSig2 =
      (sampleSig,
       (signMessageExternal none "Hello Nosana Node!" 1000 sampleSig).2.1,
       false) ∧
    (signMessageExternal
        (signMessageExternal none "Hello Nosana Node!" 1000 sampleSig).2.1
        "Hello Nosana Node!" (1000 + API_AUTH_CACHE_TTL_MS) sampleSig2).2.2 = true ∧
    (signMessageExternal
        (signMessageExternal none "Hello Nosana Node!" 1000 sampleSig).2.1
        "other message" 2000 sampleSig2).2.2 = true ∧
    (signMessageExternal none "Hello Nosana Node!" 2000 sampleSig2).2.2 = true := by
  have h := delegated_signer_cache "Hello Nosana Node!" "other message" 1000 2000
    sampleSig sampleSig2 rfl
  have h2 := delegated_signer_cache "Hello Nosana Node!" "other message" 1000
    (1000 + API_AUTH_CACHE_TTL_MS) sampleSig sampleSig2 rfl
  exact ⟨h.1, h.2.1, h.2.2.1 (by decide), h2.2.2.2.1 (by decide),
    h.2.2.2.2.1 (by decide), h.2.2.2.2.2⟩

/-- Claim C7: during the confidential push of the real definition, a
first attempt failing with a 4xx status triggers exactly one retry,
after force-clearing the cached delegated-auth entry and obtaining a
fresh header from the signing endpoint, and the outcome of that single
retry is surfaced as is (two send attempts in total, never more); a
first failure with any non-4xx status is surfaced immediately with no
retry and no cache clear. -/
theorem confidential_push_4xx_single_retry (a2 : Except PushError Unit)
    (e : PushError) (cache : Option CachedAuth) (now : Nat) (remote : SigResult) :
    (400 ≤ e.status ∧ e.status < 500 →
      confidentialPush (.error e) a2 cache now remote =
        ⟨a2, 2, true,
         some ⟨remote.signature, remote.message, remote.userAddress, now⟩⟩) ∧
    (¬(400 ≤ e.status ∧ e.status < 500) →
      confidentialPush (.error e) a2 cache now remote =
        ⟨.error e, 1, false, cache⟩) ∧
    confidentialPush (.ok ()) a2 cache now remote = ⟨.ok (), 1, false, cache⟩ := by
  refine ⟨?_, ?_, rfl⟩
  · intro h4
    simp [confidentialPush, h4, signMessageExternal]
  · intro h4
    simp [confidentialPush, h4]

/-- Closed instance of the C7 theorem at concrete inputs. -/
theorem confidential_push_4xx_single_retry_witness :
    confidentialPush (.error ⟨401, "unauthorized"⟩) (.error ⟨401, "again"⟩)
        (some ⟨"sigA", "Hello Nosana Node!", "walletA", 0⟩) 5000 sampleSig2 =
      ⟨.error ⟨401, "again"⟩, 2, true,
       some ⟨"sigB", "Hello Nosana Node!", "walletB", 5000⟩⟩ ∧
    confidentialPush (.error ⟨503, "unavailable"⟩) (.ok ())
        (some ⟨"sigA", "Hello Nosana Node!", "walletA", 0⟩) 5000 sampleSig2 =
      ⟨.error ⟨503, "unavailable"⟩, 1, false,
       some ⟨"sigA", "Hello Nosana Node!", "walletA", 0⟩⟩ :=
  ⟨(confidential_push_4xx_single_retry (.error ⟨401, "again"⟩) ⟨401, "unauthorized"⟩
      (some ⟨"sigA", "Hello Nosana Node!", "walletA", 0⟩) 5000 sampleSig2).1
      (by decide),
   (confidential_push_4xx_single_retry (.ok ()) ⟨503, "unavailable"⟩
      (some ⟨"sigA", "Hello Nosana Node!", "walletA", 0⟩) 5000 sampleSig2).2.1
      (by decide)⟩

/-- If no poll within the remaining budget ever observes RUNNING, and
the job read so far is not RUNNING, the loop ends without pushing. -/
lemma waitForRunning_no_running (poll : Nat → Option JState) :
    ∀ (fuel i : Nat) (last : Option JState),
    (∀ j, i ≤ j → j < i + fuel → poll j ≠ some JState.RUNNING) →
    last ≠ some JState.RUNNING →
    waitForRunningAndSendDefinition poll fuel i last = false := by
  intro fuel
  induction fuel with
  | zero =>
    intro i last _ hlast
    cases last with
    | none => rfl
    | some s =>
      cases s
      case RUNNING => exact absurd rfl hlast
      all_goals rfl
  | succ fuel ih =>
    intro i last h hlast
    cases hp : poll i with
    | none =>
      have hstep : waitForRunningAndSendDefinition poll (fuel + 1) i last =
          waitForRunningAndSendDefinition poll fuel (i + 1) last := by
        simp [waitForRunningAndSendDefinition, hp]
      rw [hstep]
      exact ih (i + 1) last (fun j hj1 hj2 => h j (by omega) (by omega)) hlast
    | some s =>
      have hsr : s ≠ JState.RUNNING := fun hs => h i (Nat.le_refl i) (by omega) (hs ▸ hp)
      by_cases hterm : s = JState.COMPLETED ∨ s = JState.STOPPED
      · simp [waitForRunningAndSendDefinition, hp, hsr, hterm]
      · have hstep : waitForRunningAndSendDefinition poll (fuel + 1) i last =
            waitForRunningAndSendDefinition poll fuel (i + 1) (some s) := by
          simp [waitForRunningAndSendDefinition, hp, hsr, hterm]
        rw [hstep]
        exact ih (i + 1) (some s) (fun j hj1 hj2 => h j (by omega) (by omega))
          (by simp [hsr])

/-- If a COMPLETED or STOPPED poll is reached within the budget with
no RUNNING observation at or before it, the loop aborts without
pushing, whatever the later polls would return. -/
lemma waitForRunning_terminal_first (poll : Nat → Option JState) :
    ∀ (fuel i : Nat) (last : Option JState) (k : Nat),
    i ≤ k → k < i + fuel →
    (poll k = some JState.COMPLETED ∨ poll k = some JState.STOPPED) →
    (∀ j, i ≤ j → j ≤ k → poll j ≠ some JState.RUNNING) →
    last ≠ some JState.RUNNING →
    waitForRunningAndSendDefinition poll fuel i last = false := by
  intro fuel
  induction fuel with
  | zero => intro i last k hk1 hk2 _ _ _; omega
  | succ fuel ih =>
    intro i last k hk1 hk2 hterm hrun hlast
    cases hp : poll i with
    | none =>
      have hki : i ≠ k := by
        intro hik
        subst hik
        rcases hterm with ht | ht <;> rw [hp] at ht <;> exact Option.noConfusion ht
      have hstep : waitForRunningAndSendDefinition poll (fuel + 1) i last =
          waitForRunningAndSendDefinition poll fuel (i + 1) last := by
        simp [waitForRunningAndSendDefinition, hp]
      rw [hstep]
      exact ih (i + 1) last k (by omega) (by omega) hterm
        (fun j hj1 hj2 => hrun j (by omega) hj2) hlast
    | some s =>
      have hsr : s ≠ JState.RUNNING := fun hs => hrun i (Nat.le_refl i) hk1 (hs ▸ hp)
      by_cases hterm2 : s = JState.COMPLETED ∨ s = JState.STOPPED
      · simp [waitForRunningAndSendDefinition, hp, hsr, hterm2]
      · have hki : i ≠ k := by
          intro hik
          subst hik
          rcases hterm with ht | ht <;> rw [hp] at ht <;> injection ht with h1
          · exact hterm2 (Or.inl h1)
          · exact hterm2 (Or.inr h1)
        have hstep : waitForRunningAndSendDefinition poll (fuel + 1) i last =
            waitForRunningAndSendDefinition poll fuel (i + 1) (some s) := by
          simp [waitForRunningAndSendDefinition, hp, hsr, hterm2]
        rw [hstep]
        exact ih (i + 1) (some s) k (by omega) (by omega) hterm
          (fun j hj1 hj2 => hrun j (by omega) hj2) (by simp [hsr])

/-- Claim C8: the confidential handoff never pushes the real
definition when the polled job is never observed RUNNING within the
600 poll attempts, in particular when the budget is exhausted, or when
a terminal COMPLETED or STOPPED observation occurs before any RUNNING
observation. -/
theorem handoff_no_push_without_running (poll : Nat → Option JState)
    (h : (∀ j, j < POLL_MAX_RETRIES → poll j ≠ some JState.RUNNING) ∨
         (∃ k, k < POLL_MAX_RETRIES ∧
           (poll k = some JState.COMPLETED ∨ poll k = some JState.STOPPED) ∧
           ∀ j, j ≤ k → poll j ≠ some JState.RUNNING)) :
    handoffPushes poll = false := by
  rcases h with h | ⟨k, hk, hterm, hrun⟩
  · exact waitForRunning_no_running poll POLL_MAX_RETRIES 0 none
      (fun j _ hj2 => h j (by omega)) (by simp)
  · exact waitForRunning_terminal_first poll POLL_MAX_RETRIES 0 none k
      (Nat.zero_le k) (by omega) hterm (fun j _ hj2 => hrun j hj2) (by simp)

/-- Closed instance of the C8 theorem: a job that stays QUEUED for the
whole budget never receives the real definition. -/
theorem handoff_no_push_without_running_witness :
    handoffPushes (fun _ => some JState.QUEUED) = false :=
  handoff_no_push_without_running (fun _ => some JState.QUEUED)
    (Or.inl (fun j _ => by simp))

/-- A rate-limited failing attempt with retries left sleeps for the
current delay and recurses with the doubled delay. -/
lemma retryRun_rateLimited_step {α : Type} (fn : Nat → Except String α)
    (r delay attempt : Nat) (e : String)
    (he : fn attempt = .error e) (hrl : isRateLimitMsg e = true) :
    retryRun fn (r + 1) delay attempt =
      ⟨(retryRun fn r (delay * 2) (attempt + 1)).result,
       delay :: (retryRun fn r (delay * 2) (attempt + 1)).delays,
       (retryRun fn r (delay * 2) (attempt + 1)).calls + 1⟩ := by
  simp [retryRun, he, hrl]

/-- With no retries left any failure propagates after a single call. -/
lemma retryRun_exhausted {α : Type} (fn : Nat → Except String α)
    (delay attempt : Nat) (e : String) (he : fn attempt = .error e) :
    retryRun fn 0 delay attempt = ⟨.error e, [], 1⟩ := by
  simp [retryRun, he]

/-- Counterexample to claim C4 as stated: a persistently rate-limited
operation is invoked 6 times in total (the initial attempt plus 5
retries), not 5, before the last failure propagates; the sleeps are
500, 1000, 2000, 4000 and 8000 ms. -/
theorem retry_five_attempts_counterexample :
    (retryDefault (fun _ => (.error "429" : Except String Unit))).delays =
      [500, 1000, 2000, 4000, 8000] ∧
    (retryDefault (fun _ => (.error "429" : Except String Unit))).calls = 6 ∧
    ¬ (retryDefault (fun _ => (.error "429" : Except String Unit))).calls = 5 := by
  decide

/-- Claim C4 (amended): a failure whose message signals neither 429
nor Too Many Requests propagates on the first attempt with no sleep;
a persistently rate-limited operation is retried with doubling delays
of 500, 1000, 2000, 4000 and 8000 ms — 6 attempts in total, the
initial one plus 5 retries — before the failure of the last attempt
propagates. -/
theorem retry_policy_amended {α : Type} (fn : Nat → Except String α) :
    (∀ e, fn 0 = .error e → isRateLimitMsg e = false →
      retryDefault fn = ⟨.error e, [], 1⟩) ∧
    ((∀ i, i ≤ 5 → ∃ ei, fn i = .error ei ∧ isRateLimitMsg ei = true) →
      (retryDefault fn).delays = [500, 1000, 2000, 4000, 8000] ∧
      (retryDefault fn).calls = 6 ∧
      (retryDefault fn).result = fn 5) := by
  constructor
  · intro e he hrl
    rw [retryDefault]
    simp [retryRun, he, hrl]
  · intro h
    obtain ⟨e0, he0, hrl0⟩ := h 0 (by omega)
    obtain ⟨e1, he1, hrl1⟩ := h 1 (by omega)
    obtain ⟨e2, he2, hrl2⟩ := h 2 (by omega)
    obtain ⟨e3, he3, hrl3⟩ := h 3 (by omega)
    obtain ⟨e4, he4, hrl4⟩ := h 4 (by omega)
    obtain ⟨e5, he5, hrl5⟩ := h 5 (by omega)
    have s0 : retryRun fn 5 500 0 =
        ⟨(retryRun fn 4 1000 1).result, 500 :: (retryRun fn 4 1000 1).delays,
         (retryRun fn 4 1000 1).calls + 1⟩ :=
      retryRun_rateLimited_step fn 4 500 0 e0 he0 hrl0
    have s1 : retryRun fn 4 1000 1 =
        ⟨(retryRun fn 3 2000 2).result, 1000 :: (retryRun fn 3 2000 2).delays,
         (retryRun fn 3 2000 2).calls + 1⟩ :=
      retryRun_rateLimited_step fn 3 1000 1 e1 he1 hrl1
    have s2 : retryRun fn 3 2000 2 =
        ⟨(retryRun fn 2 4000 3).result, 2000 :: (retryRun fn 2 4000 3).delays,
         (retryRun fn 2 4000 3).calls + 1⟩ :=
      retryRun_rateLimited_step fn 2 2000 2 e2 he2 hrl2
    have s3 : retryRun fn 2 4000 3 =
        ⟨(retryRun fn 1 8000 4).result, 4000 :: (retryRun fn 1 8000 4).delays,
         (retryRun fn 1 8000 4).calls + 1⟩ :=
      retryRun_rateLimited_step fn 1 4000 3 e3 he3 hrl3
    have s4 : retryRun fn 1 8000 4 =
        ⟨(retryRun fn 0 16000 5).result, 8000 :: (retryRun fn 0 16000 5).delays,
         (retryRun fn 0 16000 5).calls + 1⟩ :=
      retryRun_rateLimited_step fn 0 8000 4 e4 he4 hrl4
    have s5 : retryRun fn 0 16000 5 = ⟨.error e5, [], 1⟩ :=
      retryRun_exhausted fn 16000 5 e5 he5
    rw [retryDefault, s0, s1, s2, s3, s4, s5]
    exact ⟨rfl, rfl, he5.symm⟩

/-- Closed instance of the amended C4 theorem at concrete operations. -/
theorem retry_policy_amended_witness :
    retryDefault (fun _ => (.error "boom" : Except String Unit)) =
      ⟨.error "boom", [], 1⟩ ∧
    (retryDefault (fun i => (.error ("429 at " ++ toString i) : Except String Unit))).delays =
      [500, 1000, 2000, 4000, 8000] ∧
    (retryDefault (fun i => (.error ("429 at " ++ toString i) : Except String Unit))).calls = 6 ∧
    (retryDefault (fun i => (.error ("429 at " ++ toString i) : Except String Unit))).result =
      (fun i => (.error ("429 at " ++ toString i) : Except String Unit)) 5 :=
  ⟨(retry_policy_amended (fun _ => (.error "boom" : Except String Unit))).1
      "boom" rfl (by decide),
   (retry_policy_amended (fun i =>
      (.error ("429 at " ++ toString i) : Except String Unit))).2
      (fun i hi => ⟨"429 at " ++ toString i, rfl, by
        interval_cases i <;> decide⟩)⟩

/-- Claim C10: in API mode a successful credits-balance read yields a
result whose nos field is assignedCredits minus reservedCredits minus
settledCredits formatted to two decimal places, whose sol field is 0
and whose address is API_ACCOUNT, independently of the SDK fallback
outcome; and the formatted string always ends in a point followed by
exactly two digit characters. -/
theorem getBalance_api_mode (b : CreditsBalance) (fb : Except String (Option String)) :
    getBalanceApi (.ok b) fb =
      .ok ⟨0, toFixed2 (b.assignedCredits - b.reservedCredits - b.settledCredits),
        some b.assignedCredits, some b.reservedCredits, some b.settledCredits,
        "API_ACCOUNT"⟩ ∧
    ∃ intPart d1 d2,
      toFixed2 (b.assignedCredits - b.reservedCredits - b.settledCredits) =
        intPart ++ "." ++ String.mk [d1, d2] := by
  exact ⟨rfl, ⟨_, _, _, rfl⟩⟩

end Nosana
